import Mathlib

/-!
Verification of the 2D kinematics and axis-separated collision engine of the
Game-3 repository.  The definitions below are a shallow embedding of the most
complete iteration of the source (src/main.ts, second document: the typed
engine with MapSprite / SpawnPlace / Door), translated statement by statement.
JavaScript numbers are modelled by exact rationals (ℚ) for the kinematics,
by reals (ℝ) for the square-root based vector operations, and by
`Option ℚ` (with `none` playing the role of NaN / undefined) where the source
relies on JavaScript's undefined-propagation semantics.
-/

namespace Game3

/-- Error raised by Vector2D.divide (src/main.ts line 599: Division by zero). -/
inductive VectorError where
  | divideByZero
  deriving DecidableEq, Repr

/-- Vector2D (src/main.ts lines 520-619) restricted to the operations the
kinematics engine uses, with coordinates as exact rationals. -/
structure Vector2D where
  x : ℚ
  y : ℚ
  deriving DecidableEq, Repr

/-- Vector2D.add (src/main.ts lines 584-587). -/
def Vector2D.add (v other : Vector2D) : Vector2D :=
  ⟨v.x + other.x, v.y + other.y⟩

/-- Vector2D.multiply (src/main.ts lines 593-595). -/
def Vector2D.multiply (v : Vector2D) (scalar : ℚ) : Vector2D :=
  ⟨v.x * scalar, v.y * scalar⟩

/-- Vector2D.divide (src/main.ts lines 597-602): throws on a zero scalar,
modelled as an Except value. -/
def Vector2D.divide (v : Vector2D) (scalar : ℚ) : Except VectorError Vector2D :=
  if scalar = 0 then .error .divideByZero
  else .ok ⟨v.x / scalar, v.y / scalar⟩

/-- Real-valued vector, for the Vector2D operations built on Math.sqrt
(magnitude and normalize, src/main.ts lines 529-539).  The reals are the
idealisation of the source's IEEE doubles; the spec states the corresponding
property only up to floating-point tolerance. -/
structure Vector2R where
  x : ℝ
  y : ℝ

/-- Vector2D.magnitude (src/main.ts lines 529-531). -/
noncomputable def Vector2R.magnitude (v : Vector2R) : ℝ :=
  Real.sqrt (v.x * v.x + v.y * v.y)

/-- Vector2D.normalize (src/main.ts lines 533-539): returns the zero vector
when the magnitude is zero, otherwise divides both components by it. -/
noncomputable def Vector2R.normalize (v : Vector2R) : Vector2R :=
  if v.magnitude = 0 then ⟨0, 0⟩
  else ⟨v.x / v.magnitude, v.y / v.magnitude⟩

/-- CollisionBlock (src/main.ts lines 662-692): a static axis-aligned
rectangle with top-left corner pos and extent w × h. -/
structure CollisionBlock where
  pos : Vector2D
  w : ℚ
  h : ℚ
  deriving DecidableEq, Repr

/-- The kinematic state and parameters of Player
(src/main.ts lines 882-901): top-left position, velocity, hitbox extent and
the fixed input magnitudes. -/
structure Player where
  pos : Vector2D
  vel : Vector2D
  width : ℚ
  height : ℚ
  jumpFactor : ℚ
  speedFactor : ℚ
  deriving DecidableEq, Repr

/-- The AABB overlap condition shared verbatim by checkCollisionYaxis
(src/main.ts lines 996-999) and checkCollisionXaxis (lines 1026-1029):
inclusive comparisons of the two rectangles in the source's order. -/
def overlapTest (player : Player) (block : CollisionBlock) : Bool :=
  decide (player.pos.x ≤ block.pos.x + block.w) &&
  decide (player.pos.x + player.width ≥ block.pos.x) &&
  decide (player.pos.y + player.height ≥ block.pos.y) &&
  decide (player.pos.y ≤ block.pos.y + block.h)

/-- Body of the overlap branch of checkCollisionYaxis
(src/main.ts lines 1001-1007): the two sign-guarded pos.y assignments run in
sequence, then vel.y is set to 0. -/
def snapYaxis (player : Player) (block : CollisionBlock) : Player :=
  let p1 := if player.vel.y < 0 then
    { player with pos := { player.pos with y := block.pos.y + block.h + 0.01 } }
    else player
  let p2 := if p1.vel.y > 0 then
    { p1 with pos := { p1.pos with y := block.pos.y - p1.height - 0.01 } }
    else p1
  { p2 with vel := { p2.vel with y := 0 } }

/-- Player.checkCollisionYaxis (src/main.ts lines 993-1011): scan the block
list in order, resolve against the first overlapping block and break. -/
def Player.checkCollisionYaxis (player : Player) : List CollisionBlock → Player
  | [] => player
  | block :: rest =>
    if overlapTest player block then snapYaxis player block
    else player.checkCollisionYaxis rest

/-- Body of the overlap branch of checkCollisionXaxis
(src/main.ts lines 1031-1036): the two sign-guarded pos.x assignments;
vel.x is never written. -/
def snapXaxis (player : Player) (block : CollisionBlock) : Player :=
  let p1 := if player.vel.x < 0 then
    { player with pos := { player.pos with x := block.pos.x + block.w + 0.01 } }
    else player
  if p1.vel.x > 0 then
    { p1 with pos := { p1.pos with x := block.pos.x - p1.width - 0.01 } }
  else p1

/-- Player.checkCollisionXaxis (src/main.ts lines 1012-1040).  The Door
check at lines 1016-1024 has an empty body (all statements are commented
out), so it contributes nothing to the state transition. -/
def Player.checkCollisionXaxis (player : Player) : List CollisionBlock → Player
  | [] => player
  | block :: rest =>
    if overlapTest player block then snapXaxis player block
    else player.checkCollisionXaxis rest

/-- GameEngine.applyGravity (src/main.ts lines 1345-1361), with the engine's
gravity vector and canvas height as parameters. -/
def applyGravity (body : Player) (gravity : Vector2D) (worldHeight : ℚ) : Player :=
  let bottom := body.pos.y + body.height
  if bottom < worldHeight then { body with vel := body.vel.add gravity }
  else { body with vel := { body.vel with y := 0 },
                   pos := { body.pos with y := worldHeight - body.height } }

/-- Player.update (src/main.ts lines 975-991): the per-frame transition,
translated statement by statement. -/
def Player.update (player : Player) (collisionBlocks : List CollisionBlock)
    (gravity : Vector2D) (worldHeight : ℚ) : Player :=
  let p1 := { player with pos := { player.pos with x := player.pos.x + player.vel.x } }
  let p2 := p1.checkCollisionXaxis collisionBlocks
  let p3 := applyGravity p2 gravity worldHeight
  let p4 := { p3 with pos := { p3.pos with y := p3.pos.y + p3.vel.y } }
  p4.checkCollisionYaxis collisionBlocks

/-- The X-integration statement pos.x += vel.x (src/main.ts line 982). -/
def integrateX (player : Player) : Player :=
  { player with pos := { player.pos with x := player.pos.x + player.vel.x } }

/-- The Y-integration statement pos.y += vel.y (src/main.ts line 988). -/
def integrateY (player : Player) : Player :=
  { player with pos := { player.pos with y := player.pos.y + player.vel.y } }

/-- GameEngine.checkCanvasCollision (src/main.ts lines 1317-1343): the four
side flags are computed once from the incoming state, then the three clamp
branches run in sequence (the down-side flag is computed at line 1330 but no
branch uses it). -/
def checkCanvasCollision (p : Player) (canvasWidth canvasHeight : ℚ) : Player :=
  let hasHitLeftSide : Bool := decide (p.pos.x ≤ 0)
  let hasHitUpSide : Bool := decide (p.pos.y ≤ 0)
  let hasHitRightSide : Bool := decide (p.pos.x + p.width ≥ canvasWidth)
  let _hasHitDownSide : Bool := decide (p.pos.y + p.height + p.height ≥ canvasHeight)
  let p1 := if hasHitLeftSide then
    { p with pos := { p.pos with x := 0 }, vel := { p.vel with x := 0 } }
    else p
  let p2 := if hasHitUpSide then
    { p1 with vel := { p1.vel with y := 0 }, pos := { p1.pos with y := 0 } }
    else p1
  if hasHitRightSide then
    { p2 with vel := { p2.vel with x := 0 },
              pos := { p2.pos with x := canvasWidth - p2.width } }
  else p2

/-- Effect of GameEngine.render (src/main.ts lines 1363-1425) on the player's
kinematic state: the only statement touching pos or vel is the call
this.player.update({gravity, collisionBlocks}) at lines 1415-1418.
checkCanvasCollision (lines 1317-1343) is defined on the engine but never
invoked by render; drawing and sprite animation do not read or write pos/vel.
The canvas width is listed as a parameter to record that it is not consulted. -/
def renderFrame (player : Player) (blocks : List CollisionBlock)
    (gravity : Vector2D) (_canvasWidth canvasHeight : ℚ) : Player :=
  player.update blocks gravity canvasHeight

/-- Player.stop (src/main.ts lines 1042-1044). -/
def Player.stop (player : Player) : Player :=
  { player with vel := player.vel.multiply 0 }

/-- Player.jump (src/main.ts lines 1057-1061). -/
def Player.jump (player : Player) : Player :=
  if player.vel.y = 0 then
    { player with vel := player.vel.add ⟨0, player.jumpFactor⟩ }
  else player

/-- Specification-side restatement of the Y-axis resolution policy, written
from the words of the spec (section 4.3) and claim C2: find the first block
of the list passing the inclusive AABB overlap test; snap pos.y according to
the sign of vel.y and zero vel.y; leave the body untouched when no block
overlaps. -/
def resolveAxisYSpec (player : Player) (blocks : List CollisionBlock) : Player :=
  match blocks.find? (fun block => overlapTest player block) with
  | none => player
  | some block =>
    { player with
      pos := { player.pos with y :=
        if player.vel.y < 0 then block.pos.y + block.h + 0.01
        else if player.vel.y > 0 then block.pos.y - player.height - 0.01
        else player.pos.y },
      vel := { player.vel with y := 0 } }

/-!
Model of JavaScript numbers as produced by the untyped block list: the list
built by GameEngine.initBlocks (src/main.ts lines 1248-1276) holds
CollisionBlock, SpawnPlace and Door objects.  SpawnPlace and Door (both
extending Point) have a pos but no w or h field, so reading block.w or
block.h yields undefined; arithmetic on undefined yields NaN and every
comparison against NaN is false.  `none` stands for undefined/NaN.
-/

/-- A JavaScript number that may be undefined or NaN. -/
abbrev JsNum := Option ℚ

/-- JavaScript addition: defined on numbers, NaN as soon as an operand is
undefined or NaN. -/
def jsAdd : JsNum → JsNum → JsNum
  | some a, some b => some (a + b)
  | _, _ => none

/-- JavaScript subtraction, with the same NaN propagation. -/
def jsSub : JsNum → JsNum → JsNum
  | some a, some b => some (a - b)
  | _, _ => none

/-- JavaScript <=: false whenever an operand is NaN. -/
def jsLe : JsNum → JsNum → Bool
  | some a, some b => decide (a ≤ b)
  | _, _ => false

/-- JavaScript >=: false whenever an operand is NaN. -/
def jsGe : JsNum → JsNum → Bool
  | some a, some b => decide (a ≥ b)
  | _, _ => false

/-- JavaScript <: false whenever an operand is NaN. -/
def jsLt : JsNum → JsNum → Bool
  | some a, some b => decide (a < b)
  | _, _ => false

/-- JavaScript >: false whenever an operand is NaN. -/
def jsGt : JsNum → JsNum → Bool
  | some a, some b => decide (a > b)
  | _, _ => false

/-- An entry of GameEngine.blocks as the collision resolvers see it: every
entry has a concrete pos (all three classes store a real Vector2D there),
while the extent fields are undefined on the SpawnPlace and Door markers
(src/main.ts lines 700-708 and 1070-1079 define no w or h). -/
structure JsEntry where
  pos : Vector2D
  w : JsNum
  h : JsNum
  deriving DecidableEq, Repr

/-- The player state with every numeric field as a JavaScript number, so the
resolvers can be translated over the heterogeneous block list verbatim. -/
structure JsPlayer where
  posx : JsNum
  posy : JsNum
  velx : JsNum
  vely : JsNum
  width : JsNum
  height : JsNum
  deriving DecidableEq, Repr

/-- A Player as seen by the JavaScript-number model: all fields defined. -/
def toJs (p : Player) : JsPlayer :=
  ⟨some p.pos.x, some p.pos.y, some p.vel.x, some p.vel.y,
   some p.width, some p.height⟩

/-- The AABB condition of the resolvers (src/main.ts lines 996-999 and
1026-1029) evaluated with JavaScript semantics over an arbitrary list entry:
the extent reads block.w and block.h go through jsAdd, so a missing extent
poisons the comparison. -/
def jsOverlap (player : JsPlayer) (block : JsEntry) : Bool :=
  jsLe player.posx (jsAdd (some block.pos.x) block.w) &&
  jsGe (jsAdd player.posx player.width) (some block.pos.x) &&
  jsGe (jsAdd player.posy player.height) (some block.pos.y) &&
  jsLe player.posy (jsAdd (some block.pos.y) block.h)

/-- The overlap branch of checkCollisionYaxis (src/main.ts lines 1001-1007)
with JavaScript numbers. -/
def jsSnapY (player : JsPlayer) (block : JsEntry) : JsPlayer :=
  let p1 := if jsLt player.vely (some 0) then
    { player with posy := jsAdd (jsAdd (some block.pos.y) block.h) (some 0.01) }
    else player
  let p2 := if jsGt p1.vely (some 0) then
    { p1 with posy := jsSub (jsSub (some block.pos.y) p1.height) (some 0.01) }
    else p1
  { p2 with vely := some 0 }

/-- checkCollisionYaxis (src/main.ts lines 993-1011) over the heterogeneous
block list with JavaScript numbers. -/
def jsCheckCollisionYaxis (player : JsPlayer) : List JsEntry → JsPlayer
  | [] => player
  | block :: rest =>
    if jsOverlap player block then jsSnapY player block
    else jsCheckCollisionYaxis player rest

/-- The overlap branch of checkCollisionXaxis (src/main.ts lines 1031-1036)
with JavaScript numbers. -/
def jsSnapX (player : JsPlayer) (block : JsEntry) : JsPlayer :=
  let p1 := if jsLt player.velx (some 0) then
    { player with posx := jsAdd (jsAdd (some block.pos.x) block.w) (some 0.01) }
    else player
  if jsGt p1.velx (some 0) then
    { p1 with posx := jsSub (jsSub (some block.pos.x) p1.width) (some 0.01) }
  else p1

/-- checkCollisionXaxis (src/main.ts lines 1012-1040) over the heterogeneous
block list with JavaScript numbers.  The Door-name check at lines 1016-1024
guards an empty statement block (its contents are commented out), so it is
omitted: it reads no state and writes no state. -/
def jsCheckCollisionXaxis (player : JsPlayer) : List JsEntry → JsPlayer
  | [] => player
  | block :: rest =>
    if jsOverlap player block then jsSnapX player block
    else jsCheckCollisionXaxis player rest

/-- The CollisionBlock sublist of a heterogeneous block list: exactly the
entries carrying both extent fields, in order. -/
def solids : List JsEntry → List CollisionBlock
  | [] => []
  | e :: rest =>
    match e.w, e.h with
    | some w, some h => ⟨e.pos, w, h⟩ :: solids rest
    | _, _ => solids rest

/-!
Theorems settling the claims.
-/

/-- Claim C1: for every frame, Player.update performs exactly this sequence in
this order: pos.x is incremented by vel.x; then X-axis collision resolution
runs against the block list; then gravity is applied; then pos.y is
incremented by vel.y; then Y-axis collision resolution runs against the
block list. -/
theorem update_order (player : Player) (blocks : List CollisionBlock)
    (gravity : Vector2D) (worldHeight : ℚ) :
    player.update blocks gravity worldHeight =
      Player.checkCollisionYaxis
        (integrateY (applyGravity
          (Player.checkCollisionXaxis (integrateX player) blocks)
          gravity worldHeight)) blocks := rfl

/-- The overlap branch of the Y resolver written as a single conditional
update, as the spec phrases it. -/
theorem snapYaxis_eq (player : Player) (block : CollisionBlock) :
    snapYaxis player block =
      { player with
        pos := { player.pos with y :=
          if player.vel.y < 0 then block.pos.y + block.h + 0.01
          else if player.vel.y > 0 then block.pos.y - player.height - 0.01
          else player.pos.y },
        vel := { player.vel with y := 0 } } := by
  unfold snapYaxis
  by_cases h1 : player.vel.y < 0
  · have h2 : ¬ player.vel.y > 0 := by linarith
    simp [h1, h2]
  · by_cases h2 : player.vel.y > 0 <;> simp [h1, h2]

/-- Claim C2: for every body and every block list, Y-axis resolution scans
the blocks in insertion order and, at the first block passing the inclusive
AABB overlap test, snaps pos.y to block.y + block.h + 0.01 when vel.y < 0,
snaps pos.y to block.y - body.height - 0.01 when vel.y > 0, then sets vel.y
to 0 and inspects no further blocks; if no block overlaps, pos and vel are
left unchanged. -/
theorem checkCollisionYaxis_first_match (player : Player)
    (blocks : List CollisionBlock) :
    player.checkCollisionYaxis blocks = resolveAxisYSpec player blocks := by
  induction blocks with
  | nil => rfl
  | cons b rest ih =>
    unfold Player.checkCollisionYaxis resolveAxisYSpec
    cases hov : overlapTest player b with
    | true =>
      rw [List.find?_cons_of_pos _ hov]
      simpa [hov] using snapYaxis_eq player b
    | false =>
      rw [List.find?_cons_of_neg _ (by simp [hov])]
      unfold resolveAxisYSpec at ih
      simpa [hov] using ih

/-- Claim C3: gravity application adds the gravity vector to vel above the
floor and otherwise zeroes vel.y and clamps pos.y to the floor; vel.x is
unchanged in both branches when the gravity vector is purely vertical. -/
theorem applyGravity_spec (body : Player) (gravity : Vector2D)
    (worldHeight : ℚ) (hg : gravity.x = 0) :
    (body.pos.y + body.height < worldHeight →
      (applyGravity body gravity worldHeight).vel = body.vel.add gravity ∧
      (applyGravity body gravity worldHeight).pos = body.pos) ∧
    (¬ body.pos.y + body.height < worldHeight →
      (applyGravity body gravity worldHeight).vel.y = 0 ∧
      (applyGravity body gravity worldHeight).pos.y = worldHeight - body.height) ∧
    (applyGravity body gravity worldHeight).vel.x = body.vel.x := by
  unfold applyGravity
  by_cases hb : body.pos.y + body.height < worldHeight
  · simp [hb, Vector2D.add, hg]
  · simp [hb]

/-- Witness for claim C3: a falling body above the floor, and a body resting
on the floor. -/
theorem applyGravity_spec_witness :
    (applyGravity ⟨⟨0, 0⟩, ⟨3, 4⟩, 10, 10, -20, 5⟩ ⟨0, 1⟩ 100).vel =
      Vector2D.add ⟨3, 4⟩ ⟨0, 1⟩ ∧
    (applyGravity ⟨⟨0, 5⟩, ⟨3, 4⟩, 10, 10, -20, 5⟩ ⟨0, 1⟩ 10).pos.y = 10 - 10 :=
  ⟨((applyGravity_spec ⟨⟨0, 0⟩, ⟨3, 4⟩, 10, 10, -20, 5⟩ ⟨0, 1⟩ 100 rfl).1
      (by norm_num)).1,
   ((applyGravity_spec ⟨⟨0, 5⟩, ⟨3, 4⟩, 10, 10, -20, 5⟩ ⟨0, 1⟩ 10 rfl).2.1
      (by norm_num)).2⟩

/-- Claim C4 counterexample: a frame of the most complete iteration applies
no canvas-bounds clamp.  A body at pos.x = 2 moving left with vel.x = -5
crosses the left world bound during the frame, yet ends the frame with
pos.x = -3 and vel.x = -5 rather than pos.x = 0 and vel.x = 0. -/
theorem canvas_clamp_counterexample :
    ¬ ((renderFrame ⟨⟨2, 0⟩, ⟨-5, 0⟩, 10, 10, -20, 5⟩ [] ⟨0, 1⟩ 300 500).pos.x = 0 ∧
       (renderFrame ⟨⟨2, 0⟩, ⟨-5, 0⟩, 10, 10, -20, 5⟩ [] ⟨0, 1⟩ 300 500).vel.x = 0) := by
  have hval : renderFrame ⟨⟨2, 0⟩, ⟨-5, 0⟩, 10, 10, -20, 5⟩ [] ⟨0, 1⟩ 300 500 =
      ⟨⟨-3, 1⟩, ⟨-5, 1⟩, 10, 10, -20, 5⟩ := by
    norm_num [renderFrame, Player.update, Player.checkCollisionXaxis,
      Player.checkCollisionYaxis, applyGravity, Vector2D.add]
  rw [hval]
  norm_num

/-- Claim C4 as amended: the frame of the most complete iteration never
invokes the canvas-bounds clamp — its effect on the body is exactly
Player.update — while the clamp function itself, applied to a body with
pos.x ≤ 0 whose right edge is inside the world bound, does set pos.x = 0 and
vel.x = 0. -/
theorem canvas_clamp_amended :
    (∀ (p : Player) (bs : List CollisionBlock) (g : Vector2D) (W H : ℚ),
      renderFrame p bs g W H = p.update bs g H) ∧
    (∀ (p : Player) (W H : ℚ), p.pos.x ≤ 0 → p.pos.x + p.width < W →
      (checkCanvasCollision p W H).pos.x = 0 ∧
      (checkCanvasCollision p W H).vel.x = 0) := by
  refine ⟨fun p bs g W H => rfl, fun p W H hL hR => ?_⟩
  have hR' : ¬ (p.pos.x + p.width ≥ W) := not_le.mpr hR
  unfold checkCanvasCollision
  by_cases hU : p.pos.y ≤ 0 <;> simp [hL, hU, hR']

/-- Witness for the amended claim C4: the clamp zeroes pos.x and vel.x for a
concrete body past the left bound. -/
theorem canvas_clamp_amended_witness :
    (checkCanvasCollision ⟨⟨-1, 5⟩, ⟨-5, 2⟩, 10, 10, -20, 5⟩ 100 200).pos.x = 0 ∧
    (checkCanvasCollision ⟨⟨-1, 5⟩, ⟨-5, 2⟩, 10, 10, -20, 5⟩ 100 200).vel.x = 0 :=
  canvas_clamp_amended.2 ⟨⟨-1, 5⟩, ⟨-5, 2⟩, 10, 10, -20, 5⟩ 100 200
    (by norm_num) (by norm_num)

/-- The overlap branch of the X resolver does not touch the velocity or the
vertical position. -/
theorem snapXaxis_preserves (player : Player) (block : CollisionBlock) :
    (snapXaxis player block).vel = player.vel ∧
    (snapXaxis player block).pos.y = player.pos.y := by
  unfold snapXaxis
  by_cases h1 : player.vel.x < 0
  · have h2 : ¬ player.vel.x > 0 := by linarith
    simp [h1, h2]
  · by_cases h2 : player.vel.x > 0 <;> simp [h1, h2]

/-- Claim C5: for every body and every block list, X-axis resolution may
change only pos.x — vel.x, vel.y and pos.y are left unchanged by
checkCollisionXaxis, whether or not an overlapping block is found. -/
theorem checkCollisionXaxis_only_posx (player : Player)
    (blocks : List CollisionBlock) :
    (player.checkCollisionXaxis blocks).vel.x = player.vel.x ∧
    (player.checkCollisionXaxis blocks).vel.y = player.vel.y ∧
    (player.checkCollisionXaxis blocks).pos.y = player.pos.y := by
  induction blocks with
  | nil => exact ⟨rfl, rfl, rfl⟩
  | cons b rest ih =>
    unfold Player.checkCollisionXaxis
    cases hov : overlapTest player b with
    | true =>
      have h := snapXaxis_preserves player b
      simp [hov, h.1, h.2]
    | false => simpa [hov] using ih

/-- Claim C6: the Jump command changes the body's velocity only when
vel.y = 0 (it then adds jumpFactor to vel.y); for every state with
vel.y ≠ 0, jump leaves pos and vel unchanged. -/
theorem jump_grounded_only (player : Player) :
    (player.vel.y = 0 →
      (player.jump).vel.y = player.vel.y + player.jumpFactor ∧
      (player.jump).vel.x = player.vel.x ∧
      (player.jump).pos = player.pos) ∧
    (player.vel.y ≠ 0 → player.jump = player) := by
  unfold Player.jump
  by_cases h : player.vel.y = 0 <;> simp [h, Vector2D.add]

/-- Witness for claim C6: a grounded body gains jumpFactor on vel.y, an
airborne body is left untouched. -/
theorem jump_grounded_only_witness :
    (Player.jump ⟨⟨1, 2⟩, ⟨3, 0⟩, 10, 10, -20, 5⟩).vel.y = 0 + -20 ∧
    Player.jump ⟨⟨1, 2⟩, ⟨3, 7⟩, 10, 10, -20, 5⟩ =
      ⟨⟨1, 2⟩, ⟨3, 7⟩, 10, 10, -20, 5⟩ :=
  ⟨((jump_grounded_only ⟨⟨1, 2⟩, ⟨3, 0⟩, 10, 10, -20, 5⟩).1 rfl).1,
   (jump_grounded_only ⟨⟨1, 2⟩, ⟨3, 7⟩, 10, 10, -20, 5⟩).2 (by norm_num)⟩

/-- Claim C7: for every vector v, if v.magnitude = 0 then v.normalize
returns the zero vector without error; otherwise the magnitude of
v.normalize equals 1. -/
theorem normalize_spec (v : Vector2R) :
    (v.magnitude = 0 → v.normalize = ⟨0, 0⟩) ∧
    (v.magnitude ≠ 0 → (v.normalize).magnitude = 1) := by
  constructor
  · intro h
    unfold Vector2R.normalize
    simp [h]
  · intro h
    have hs : (0 : ℝ) ≤ v.x * v.x + v.y * v.y :=
      add_nonneg (mul_self_nonneg _) (mul_self_nonneg _)
    have hss : v.x * v.x + v.y * v.y ≠ 0 := by
      intro h0
      apply h
      unfold Vector2R.magnitude
      rw [h0, Real.sqrt_zero]
    have hmm : v.magnitude * v.magnitude = v.x * v.x + v.y * v.y :=
      Real.mul_self_sqrt hs
    unfold Vector2R.normalize
    rw [if_neg h]
    show Real.sqrt ((v.x / v.magnitude) * (v.x / v.magnitude) +
      (v.y / v.magnitude) * (v.y / v.magnitude)) = 1
    rw [div_mul_div_comm, div_mul_div_comm, div_add_div_same, hmm,
      div_self hss, Real.sqrt_one]

/-- Witness for claim C7: the zero vector normalizes to itself, and (3, 4)
normalizes to a unit vector. -/
theorem normalize_spec_witness :
    Vector2R.magnitude ⟨0, 0⟩ = 0 ∧
    Vector2R.normalize ⟨0, 0⟩ = ⟨0, 0⟩ ∧
    Vector2R.magnitude ⟨3, 4⟩ ≠ 0 ∧
    Vector2R.magnitude (Vector2R.normalize ⟨3, 4⟩) = 1 := by
  have h0 : Vector2R.magnitude ⟨0, 0⟩ = 0 := by
    show Real.sqrt ((0 : ℝ) * 0 + 0 * 0) = 0
    simp
  have h34 : Vector2R.magnitude ⟨3, 4⟩ ≠ 0 := by
    show Real.sqrt ((3 : ℝ) * 3 + 4 * 4) ≠ 0
    exact ne_of_gt (Real.sqrt_pos.mpr (by norm_num))
  exact ⟨h0, (normalize_spec ⟨0, 0⟩).1 h0, h34, (normalize_spec ⟨3, 4⟩).2 h34⟩

/-- Claim C8: v.divide scalar fails with the DivideByZero error exactly when
scalar = 0, and for scalar ≠ 0 returns the vector (v.x / scalar,
v.y / scalar) without error. -/
theorem divide_spec (v : Vector2D) (scalar : ℚ) :
    (scalar = 0 → v.divide scalar = .error .divideByZero) ∧
    (scalar ≠ 0 → v.divide scalar = .ok ⟨v.x / scalar, v.y / scalar⟩) := by
  unfold Vector2D.divide
  by_cases h : scalar = 0 <;> simp [h]

/-- Witness for claim C8: division by 0 errors, division by 2 succeeds. -/
theorem divide_spec_witness :
    Vector2D.divide ⟨6, 8⟩ 0 = .error .divideByZero ∧
    Vector2D.divide ⟨6, 8⟩ 2 = .ok ⟨6 / 2, 8 / 2⟩ :=
  ⟨(divide_spec ⟨6, 8⟩ 0).1 rfl, (divide_spec ⟨6, 8⟩ 2).2 (by norm_num)⟩

/-- Claim C9 (implicit): Player.stop sets the entire velocity to the zero
vector — vel.y as well as vel.x — so a Stop issued while the body is
airborne makes vel.y = 0 and thereby makes the Jump command's grounded
check pass in mid-air: jumping right after stopping adds jumpFactor. -/
theorem stop_zeroes_velocity_enables_jump (player : Player) :
    (player.stop).vel = ⟨0, 0⟩ ∧
    ((player.stop).jump).vel = ⟨0, player.jumpFactor⟩ := by
  simp [Player.stop, Player.jump, Vector2D.multiply, Vector2D.add]

/-- Adding an undefined operand yields NaN. -/
theorem jsAdd_none_right (a : JsNum) : jsAdd a none = none := by
  cases a <;> rfl

/-- A comparison against NaN is false. -/
theorem jsLe_none_right (a : JsNum) : jsLe a none = false := by
  cases a <;> rfl

/-- The overlap test is false against any entry missing an extent field:
the comparison against the poisoned bound fails. -/
theorem jsOverlap_marker (p : Player) (e : JsEntry)
    (h : e.w = none ∨ e.h = none) : jsOverlap (toJs p) e = false := by
  rcases h with h | h <;>
    simp [jsOverlap, h, jsAdd_none_right, jsLe_none_right]

/-- On an entry carrying both extents, the JavaScript-number overlap test
agrees with the rational AABB test. -/
theorem jsOverlap_solid (p : Player) (e : JsEntry) (w h : ℚ)
    (hw : e.w = some w) (hh : e.h = some h) :
    jsOverlap (toJs p) e = overlapTest p ⟨e.pos, w, h⟩ := by
  simp [jsOverlap, overlapTest, toJs, hw, hh, jsAdd, jsLe, jsGe]

/-- On an entry carrying both extents, the JavaScript-number Y snap agrees
with the rational one. -/
theorem jsSnapY_solid (p : Player) (e : JsEntry) (w h : ℚ)
    (_hw : e.w = some w) (hh : e.h = some h) :
    jsSnapY (toJs p) e = toJs (snapYaxis p ⟨e.pos, w, h⟩) := by
  unfold jsSnapY snapYaxis
  by_cases h1 : p.vel.y < 0
  · have h2 : ¬ p.vel.y > 0 := by linarith
    simp [toJs, hh, jsAdd, jsSub, jsLt, jsGt, h1, h2]
  · by_cases h2 : p.vel.y > 0 <;>
      simp [toJs, hh, jsAdd, jsSub, jsLt, jsGt, h1, h2]

/-- On an entry carrying both extents, the JavaScript-number X snap agrees
with the rational one. -/
theorem jsSnapX_solid (p : Player) (e : JsEntry) (w h : ℚ)
    (hw : e.w = some w) (_hh : e.h = some h) :
    jsSnapX (toJs p) e = toJs (snapXaxis p ⟨e.pos, w, h⟩) := by
  unfold jsSnapX snapXaxis
  by_cases h1 : p.vel.x < 0
  · have h2 : ¬ p.vel.x > 0 := by linarith
    simp [toJs, hw, jsAdd, jsSub, jsLt, jsGt, h1, h2]
  · by_cases h2 : p.vel.x > 0 <;>
      simp [toJs, hw, jsAdd, jsSub, jsLt, jsGt, h1, h2]

/-- The X resolver over the heterogeneous list behaves exactly as the
rational resolver over the CollisionBlock sublist. -/
theorem jsCheckX_eq (p : Player) (es : List JsEntry) :
    jsCheckCollisionXaxis (toJs p) es = toJs (p.checkCollisionXaxis (solids es)) := by
  induction es with
  | nil => rfl
  | cons e rest ih =>
    unfold jsCheckCollisionXaxis
    rcases he : e.w with _ | w
    · have hov := jsOverlap_marker p e (Or.inl he)
      simp [hov, solids, he, ih]
    · rcases hh : e.h with _ | h
      · have hov := jsOverlap_marker p e (Or.inr hh)
        simp [hov, solids, he, hh, ih]
      · have hov := jsOverlap_solid p e w h he hh
        cases hb : overlapTest p ⟨e.pos, w, h⟩ with
        | false =>
          simp [hov, hb, solids, he, hh, Player.checkCollisionXaxis, ih]
        | true =>
          simp [hov, hb, solids, he, hh, Player.checkCollisionXaxis,
            jsSnapX_solid p e w h he hh]

/-- The Y resolver over the heterogeneous list behaves exactly as the
rational resolver over the CollisionBlock sublist. -/
theorem jsCheckY_eq (p : Player) (es : List JsEntry) :
    jsCheckCollisionYaxis (toJs p) es = toJs (p.checkCollisionYaxis (solids es)) := by
  induction es with
  | nil => rfl
  | cons e rest ih =>
    unfold jsCheckCollisionYaxis
    rcases he : e.w with _ | w
    · have hov := jsOverlap_marker p e (Or.inl he)
      simp [hov, solids, he, ih]
    · rcases hh : e.h with _ | h
      · have hov := jsOverlap_marker p e (Or.inr hh)
        simp [hov, solids, he, hh, ih]
      · have hov := jsOverlap_solid p e w h he hh
        cases hb : overlapTest p ⟨e.pos, w, h⟩ with
        | false =>
          simp [hov, hb, solids, he, hh, Player.checkCollisionYaxis, ih]
        | true =>
          simp [hov, hb, solids, he, hh, Player.checkCollisionYaxis,
            jsSnapY_solid p e w h he hh]

/-- Claim C10 (implicit): the block list handed to the collision resolvers
also contains SpawnPlace and Door marker objects, which carry no
width/height fields; for every such marker the AABB overlap test evaluates
to false, so neither X-axis nor Y-axis resolution ever snaps the body
against a marker or changes pos or vel because of one — both resolvers
behave exactly as if only the CollisionBlock entries were present. -/
theorem markers_intangible (p : Player) (es : List JsEntry) :
    (∀ e : JsEntry, e.w = none ∧ e.h = none → jsOverlap (toJs p) e = false) ∧
    jsCheckCollisionXaxis (toJs p) es = toJs (p.checkCollisionXaxis (solids es)) ∧
    jsCheckCollisionYaxis (toJs p) es = toJs (p.checkCollisionYaxis (solids es)) :=
  ⟨fun e he => jsOverlap_marker p e (Or.inl he.1), jsCheckX_eq p es, jsCheckY_eq p es⟩

/-- Witness for claim C10: a falling body directly on a marker is not
snapped; resolution over the one-marker list equals resolution over the
empty solid list. -/
theorem markers_intangible_witness :
    jsOverlap (toJs ⟨⟨0, 0⟩, ⟨0, 5⟩, 10, 10, -20, 5⟩) ⟨⟨0, 5⟩, none, none⟩ = false ∧
    jsCheckCollisionYaxis (toJs ⟨⟨0, 0⟩, ⟨0, 5⟩, 10, 10, -20, 5⟩)
        [⟨⟨0, 5⟩, none, none⟩] =
      toJs (Player.checkCollisionYaxis ⟨⟨0, 0⟩, ⟨0, 5⟩, 10, 10, -20, 5⟩
        (solids [⟨⟨0, 5⟩, none, none⟩])) :=
  ⟨(markers_intangible ⟨⟨0, 0⟩, ⟨0, 5⟩, 10, 10, -20, 5⟩
      [⟨⟨0, 5⟩, none, none⟩]).1 ⟨⟨0, 5⟩, none, none⟩ ⟨rfl, rfl⟩,
   (markers_intangible ⟨⟨0, 0⟩, ⟨0, 5⟩, 10, 10, -20, 5⟩
      [⟨⟨0, 5⟩, none, none⟩]).2.2⟩

end Game3
